import Mathlib

/-!
A shallow embedding of `src/12,5/src/script.js`, a small Three.js demo that
renders 100 floating torus ("donut") meshes plus one generated 3D text mesh,
with a debug panel for colors and text content.

Modelling conventions:
* JavaScript numbers (IEEE-754 doubles) are modelled as rationals (`ℚ`);
  every numeric literal in the script is exactly representable, and
  `Math.PI` is modelled by the exact rational value of the double constant.
* `Math.random()` results are modelled by an ambient stream `rand : Nat → ℚ`
  consumed at successive indices (nine samples per donut).
* Object identity (JS references shared between the scene graph, the
  `textMesh` / `donutMeshes` globals, and the GUI closures) is modelled by a
  numeric `id`; the scene is the list of objects currently added to it, and
  the globals hold ids into that list.  `nextFreshId` supplies fresh ids.
* Side effects that the claims talk about are recorded explicitly:
  `disposeLog` records every `geometry.dispose()` call, `consoleWarnings`
  and `alertCount` count the warning / `alert` calls, and
  `renderLoopStarted` records whether `animate()` was ever invoked.
* Asynchronous loader callbacks are modelled by passing the load outcome as
  an `Except` value to the function that installs the callbacks.
-/

namespace DonutApp

/-- A color value, as the hex RGB number the script uses (e.g. `0xff0000`). -/
abbrev Color := Nat

/-- An opaque loaded texture resource (`THREE.Texture`). -/
structure Texture where
  texId : Nat
deriving DecidableEq

/-- An opaque loaded font resource (the `FontLoader` result). -/
structure Font where
  fontId : Nat
deriving DecidableEq

/-- A 3-component vector (`THREE.Vector3`), components as rationals. -/
structure Vec3 where
  x : ℚ
  y : ℚ
  z : ℚ
deriving DecidableEq

/-- The two material variants the script can build: `MeshMatcapMaterial`
(when the matcap texture is available) or the flat-color fallback
`MeshBasicMaterial` (script.js lines 79-81 and 96-98). -/
inductive Material where
  | matcapMat (matcap : Texture) (color : Color)
  | basicMat (color : Color)
deriving DecidableEq

/-- The `color` property of a material (both variants have one). -/
def Material.colorOf : Material → Color
  | Material.matcapMat _ c => c
  | Material.basicMat c => c

/-- Whether the material is the flat-color fallback (`MeshBasicMaterial`). -/
def Material.isBasic : Material → Bool
  | Material.matcapMat _ _ => false
  | Material.basicMat _ => true

/-- `material.color` exists on both `MeshMatcapMaterial` and
`MeshBasicMaterial`, so the guard `if (donut.material.color)` on
script.js line 140 is always true. -/
def materialHasColor : Material → Bool
  | Material.matcapMat _ _ => true
  | Material.basicMat _ => true

/-- `material.color.set(newColor)`: update the color in place, keeping the
material variant (and its matcap texture) unchanged. -/
def updateMaterialColor (c : Color) : Material → Material
  | Material.matcapMat t _ => Material.matcapMat t c
  | Material.basicMat _ => Material.basicMat c

/-- JavaScript `String.prototype.trim` whitespace: WhiteSpace and
LineTerminator code points. -/
def isJsWhitespace (c : Char) : Bool :=
  c = '\t' || c = '\n' || c = '\u000B' || c = '\u000C' || c = '\r' ||
  c = ' ' || c = '\u00A0' || c = '\u1680' ||
  ('\u2000' ≤ c && c ≤ '\u200A') ||
  c = '\u2028' || c = '\u2029' || c = '\u202F' || c = '\u205F' ||
  c = '\u3000' || c = '\uFEFF'

/-- JavaScript `text.trim()`: strip leading and trailing whitespace. -/
def jsTrim (s : String) : String :=
  String.mk (((s.toList.dropWhile isJsWhitespace).reverse.dropWhile
    isJsWhitespace).reverse)

/-- The parameters of the `TextGeometry` built by `createTextGeometry`
(script.js lines 55-70), together with whether `geometry.center()` was
applied.  The geometry is a pure function of these parameters and the font. -/
structure TextGeometrySpec where
  text : String
  size : ℚ
  depth : ℚ
  curveSegments : Nat
  bevelEnabled : Bool
  bevelThickness : ℚ
  bevelSize : ℚ
  bevelOffset : ℚ
  bevelSegments : Nat
  centered : Bool
deriving DecidableEq

/-- `createTextGeometry(text, font)` (script.js lines 55-70): substitute the
placeholder when the trimmed text is empty, build the `TextGeometry` with the
fixed parameters, and center it. -/
def createTextGeometry (text : String) : TextGeometrySpec :=
  let geometryText := if jsTrim text = "" then "..." else text
  { text := geometryText
    size := 1/2
    depth := 1/5
    curveSegments := 5
    bevelEnabled := true
    bevelThickness := 3/100
    bevelSize := 1/50
    bevelOffset := 0
    bevelSegments := 3
    centered := true }

/-- A geometry resource: the shared donut torus (script.js line 88) or a
generated text geometry. -/
inductive Geometry where
  | torus (radius : ℚ) (tube : ℚ) (radialSegments : Nat) (tubularSegments : Nat)
  | textGeom (spec : TextGeometrySpec)
deriving DecidableEq

/-- The GUI-bound configuration object (script.js lines 22-26). -/
structure Config where
  donutColor : Color
  textColor : Color
  textValue : String
deriving DecidableEq

/-- The initial configuration values (script.js lines 22-26). -/
def initialConfig : Config :=
  { donutColor := 0xff0000
    textColor := 0xffffff
    textValue := "Hello :)" }

/-- A renderable object added to the scene (a `THREE.Mesh` plus the
`userData.velocity` vector the script attaches to donuts).  The script uses
uniform scaling, so a single scale factor suffices. -/
structure SceneObject where
  id : Nat
  isTextMesh : Bool
  geometry : Geometry
  material : Material
  position : Vec3
  rotX : ℚ
  rotY : ℚ
  rotZ : ℚ
  scaleFactor : ℚ
  velocity : Vec3
deriving DecidableEq

/-- The mutable global state of the script: the scene contents, the
`textMesh` and `donutMeshes` globals (as ids), the loaded assets, the
configuration, and a log of `geometry.dispose()` calls. -/
structure AppState where
  sceneObjects : List SceneObject
  textMeshId : Option Nat
  donutMeshIds : List Nat
  loadedFont : Option Font
  matcapTexture : Option Texture
  config : Config
  nextFreshId : Nat
  disposeLog : List Geometry
deriving DecidableEq

/-- The state right after module bootstrap (script.js lines 13-16, 22-26,
36-38): empty scene content, no text mesh, no donuts, no font; the matcap
texture is whatever the texture-load step produced. -/
def initialState (matcap : Option Texture) : AppState :=
  { sceneObjects := []
    textMeshId := none
    donutMeshIds := []
    loadedFont := none
    matcapTexture := matcap
    config := initialConfig
    nextFreshId := 0
    disposeLog := [] }

/-- Outcome of the texture-loading step (script.js lines 43-50). -/
structure TextureLoadOutcome where
  matcapTexture : Option Texture
  consoleWarnings : Nat
deriving DecidableEq

/-- The `try`/`catch` around `textureLoader.load` (script.js lines 44-50):
on success `matcapTexture` is set; on an exception it stays `null` and one
console warning is emitted.  The function is total: no exception escapes. -/
def loadMatcapTexture : Except Unit Texture → TextureLoadOutcome
  | Except.ok t => { matcapTexture := some t, consoleWarnings := 0 }
  | Except.error _ => { matcapTexture := none, consoleWarnings := 1 }

/-- The exact rational value of the IEEE-754 double `Math.PI`. -/
def mathPI : ℚ := 884279719003555 / 281474976710656

/-- The rainbow palette for donut materials (script.js line 89). -/
def donutColors : List Color :=
  [0xff0000, 0xffa500, 0xffff00, 0x00ff00, 0x00ffff, 0x0000ff, 0x8a2be2]

/-- Construction of the `i`-th donut in the loop of script.js lines 95-117:
material variant chosen by `matcapTexture`, color from the palette by
`i % donutColors.length`, random position in `(-7.5, 7.5)³`, random rotation
in `[0, π)` about x and y, random uniform scale in `[0.3, 1)`, and random
per-axis velocity in `(-0.01, 0.01)`.  `rand` delivers the nine successive
`Math.random()` results starting at index `9 * i`; `id` is the fresh object
id. -/
def mkDonut (matcap : Option Texture) (rand : Nat → ℚ) (i : Nat) (id : Nat) :
    SceneObject :=
  let color := donutColors.getD (i % donutColors.length) 0
  let material := match matcap with
    | some t => Material.matcapMat t color
    | none => Material.basicMat color
  let base := 9 * i
  { id := id
    isTextMesh := false
    geometry := Geometry.torus (3/10) (1/5) 16 32
    material := material
    position := ⟨(rand base - 1/2) * 15, (rand (base + 1) - 1/2) * 15,
                 (rand (base + 2) - 1/2) * 15⟩
    rotX := rand (base + 3) * mathPI
    rotY := rand (base + 4) * mathPI
    rotZ := 0
    scaleFactor := rand (base + 5) * (7/10) + 3/10
    velocity := ⟨(rand (base + 6) - 1/2) * (1/50),
                 (rand (base + 7) - 1/2) * (1/50),
                 (rand (base + 8) - 1/2) * (1/50)⟩ }

/-- The list of 100 donuts built by one invocation of `setupSceneContent`
from a state whose fresh-id counter is `nextId` (ids `nextId + 1` to
`nextId + 100`; `nextId` itself goes to the new text mesh). -/
def newDonutsOf (matcap : Option Texture) (rand : Nat → ℚ) (nextId : Nat) :
    List SceneObject :=
  (List.range 100).map (fun i => mkDonut matcap rand i (nextId + 1 + i))

/-- The text mesh built by `setupSceneContent` (script.js lines 79-85): a
fresh mesh whose geometry comes from the current config text and whose
material is the matcap variant when the texture loaded, the flat-color
fallback otherwise. -/
def textObjOf (s : AppState) : SceneObject :=
  { id := s.nextFreshId
    isTextMesh := true
    geometry := Geometry.textGeom (createTextGeometry s.config.textValue)
    material := match s.matcapTexture with
      | some t => Material.matcapMat t s.config.textColor
      | none => Material.basicMat s.config.textColor
    position := ⟨0, 0, 0⟩
    rotX := 0
    rotY := 0
    rotZ := 0
    scaleFactor := 1
    velocity := ⟨0, 0, 0⟩ }

/-- `setupSceneContent(font)` (script.js lines 75-145): store the font,
build the text mesh from the current config text and add it to the scene,
remove every previous donut from the scene and reset the array (lines 91-93
— note: `scene.remove` only; no `dispose` call is made for the previous
donuts' geometries or materials, and the previous text mesh is not removed
either), then create and add 100 fresh donuts.  The GUI folders are
rebuilt; their `onChange` closures are modelled by the `onTextColorChange`,
`onTextValueChange` and `onDonutColorChange` functions below. -/
def setupSceneContent (s : AppState) (font : Font) (rand : Nat → ℚ) :
    AppState :=
  let textId := s.nextFreshId
  let textObj := textObjOf s
  let sceneWithText := s.sceneObjects ++ [textObj]
  let sceneCleared :=
    sceneWithText.filter (fun o => !(s.donutMeshIds.contains o.id))
  let newDonuts := newDonutsOf s.matcapTexture rand textId
  { s with
    loadedFont := some font
    textMeshId := some textId
    donutMeshIds := newDonuts.map (fun o => o.id)
    sceneObjects := sceneCleared ++ newDonuts
    nextFreshId := textId + 101
    disposeLog := s.disposeLog }

/-- The `onChange` handler of the text color picker (script.js lines
124-126) together with lil-gui's own write of the new value into
`config.textColor`: set the text mesh's material color in place.  The
handler is installed by `setupSceneContent` after `textMesh` is assigned,
so `textMeshId` is always `some` when it runs. -/
def onTextColorChange (newColor : Color) (s : AppState) : AppState :=
  let s1 := { s with config := { s.config with textColor := newColor } }
  match s1.textMeshId with
  | some tid =>
      { s1 with sceneObjects := s1.sceneObjects.map (fun o =>
          if o.id == tid then
            { o with material := updateMaterialColor newColor o.material }
          else o) }
  | none => s1

/-- The `onChange` handler of the text content field (script.js lines
128-133) together with lil-gui's write into `config.textValue`: when the
text mesh and the font exist, dispose the old geometry and assign a newly
generated one to the same mesh. -/
def onTextValueChange (newText : String) (s : AppState) : AppState :=
  let s1 := { s with config := { s.config with textValue := newText } }
  match s1.textMeshId, s1.loadedFont with
  | some tid, some _ =>
      match s1.sceneObjects.find? (fun o => o.id == tid) with
      | some old =>
          { s1 with
            disposeLog := s1.disposeLog ++ [old.geometry]
            sceneObjects := s1.sceneObjects.map (fun o =>
              if o.id == tid then
                { o with geometry :=
                    Geometry.textGeom (createTextGeometry newText) }
              else o) }
      | none => s1
  | _, _ => s1

/-- The `onChange` handler of the global donut color picker (script.js
lines 137-144) together with lil-gui's write into `config.donutColor`:
iterate the `donutMeshes` array and set each material's color in place
(guarded by `donut.material.color`, which both variants have). -/
def onDonutColorChange (newColor : Color) (s : AppState) : AppState :=
  let s1 := { s with config := { s.config with donutColor := newColor } }
  { s1 with sceneObjects := s1.sceneObjects.map (fun o =>
      if s1.donutMeshIds.contains o.id && materialHasColor o.material then
        { o with material := updateMaterialColor newColor o.material }
      else o) }

/-- The fixed boundary of the donut bounce check (script.js line 212). -/
def boundary : ℚ := 10

/-- One render-loop tick for one donut (script.js lines 203-216): advance
the x and y rotations by `deltaTime * 0.5`, move the position by
`velocity * (deltaTime * 60)` (`addScaledVector`), then, per axis, flip the
velocity sign exactly when the absolute value of the already-updated
position exceeds the boundary.  The position itself is never clamped. -/
def donutTick (dt : ℚ) (o : SceneObject) : SceneObject :=
  let px := o.position.x + o.velocity.x * (dt * 60)
  let py := o.position.y + o.velocity.y * (dt * 60)
  let pz := o.position.z + o.velocity.z * (dt * 60)
  let vx := if boundary < |px| then -o.velocity.x else o.velocity.x
  let vy := if boundary < |py| then -o.velocity.y else o.velocity.y
  let vz := if boundary < |pz| then -o.velocity.z else o.velocity.z
  { o with
    rotX := o.rotX + dt * (1/2)
    rotY := o.rotY + dt * (1/2)
    position := ⟨px, py, pz⟩
    velocity := ⟨vx, vy, vz⟩ }

/-- One iteration of `animate()` (script.js lines 197-223) restricted to
the state it mutates: every mesh in `donutMeshes` is ticked in place (and
therefore also in the scene, which holds the same references).
`controls.update()` and `renderer.render` do not touch this state. -/
def animate (dt : ℚ) (s : AppState) : AppState :=
  { s with sceneObjects := s.sceneObjects.map (fun o =>
      if s.donutMeshIds.contains o.id then donutTick dt o else o) }

/-- The camera/renderer state the resize path touches (script.js lines
150-166, 171, 189-190). -/
structure RenderState where
  width : ℚ
  height : ℚ
  cameraAspect : ℚ
  rendererWidth : ℚ
  rendererHeight : ℚ
  pixelScale : ℚ
deriving DecidableEq

/-- `handleResize()` (script.js lines 155-166): record the new viewport
size, recompute the camera aspect as width / height, resize the renderer to
the viewport, and set the renderer's device pixel ratio to
`Math.min(window.devicePixelRatio, 2)`.  Every field of the previous state
is overwritten. -/
def handleResize (w h dpr : ℚ) (_r : RenderState) : RenderState :=
  { width := w
    height := h
    cameraAspect := w / h
    rendererWidth := w
    rendererHeight := h
    pixelScale := min dpr 2 }

/-- What one run of `init()` produced (script.js lines 229-254). -/
structure InitOutcome where
  state : AppState
  renderState : RenderState
  renderLoopStarted : Bool
  alertCount : Nat
deriving DecidableEq

/-- `init()` (script.js lines 229-254), applied to the font-load outcome:
on success the content is built, the initial resize is applied and the
render loop is started; on failure the error callback runs once, issuing a
single blocking `alert`, and neither `setupSceneContent` nor `animate` is
ever called — the state is untouched. -/
def init (s : AppState) (r : RenderState) (w h dpr : ℚ)
    (fontResult : Except Unit Font) (rand : Nat → ℚ) : InitOutcome :=
  match fontResult with
  | Except.ok font =>
      { state := setupSceneContent s font rand
        renderState := handleResize w h dpr r
        renderLoopStarted := true
        alertCount := 0 }
  | Except.error _ =>
      { state := s
        renderState := r
        renderLoopStarted := false
        alertCount := 1 }

/-- Number of text meshes currently in the scene. -/
def countTextMeshes (s : AppState) : Nat :=
  s.sceneObjects.countP (fun o => o.isTextMesh)

/-- The scene objects the `donutMeshes` array points at. -/
def donutObjects (s : AppState) : List SceneObject :=
  s.sceneObjects.filter (fun o => s.donutMeshIds.contains o.id)

/-- The materials of the current donut population. -/
def donutMaterials (s : AppState) : List Material :=
  (donutObjects s).map (fun o => o.material)

/-- The colors of the current donut materials. -/
def donutMaterialColors (s : AppState) : List Color :=
  (donutMaterials s).map Material.colorOf

/-- The scene object the `textMesh` global points at, if any. -/
def textMeshObj (s : AppState) : Option SceneObject :=
  match s.textMeshId with
  | none => none
  | some tid => s.sceneObjects.find? (fun o => o.id == tid)

/-- The material of the current text mesh, if any. -/
def textMaterialOf (s : AppState) : Option Material :=
  (textMeshObj s).map (fun o => o.material)

/-- Well-formedness of the id discipline: every object in the scene has an
id below the fresh-id counter (true of every state the program reaches,
since ids are only handed out by the counter). -/
def sceneWF (s : AppState) : Bool :=
  s.sceneObjects.all (fun o => o.id < s.nextFreshId) &&
  s.donutMeshIds.all (fun i => i < s.nextFreshId)

/-- The `donutMeshes` array points only at non-text meshes (true of every
state the program reaches). -/
def donutIdsPointToDonuts (s : AppState) : Bool :=
  s.sceneObjects.all (fun o =>
    !(s.donutMeshIds.contains o.id) || !o.isTextMesh)

/-- A fixed stream of `Math.random()` results used in concrete instances. -/
def rhalf : Nat → ℚ := fun _ => 1/2

/-- The state after the first invocation of the content builder from the
bootstrap state (no matcap texture), with `Math.random()` always `1/2`. -/
def buildOnce : AppState :=
  setupSceneContent (initialState none) (Font.mk 0) rhalf

/-- The state after re-invoking the content builder on `buildOnce`. -/
def buildTwice : AppState :=
  setupSceneContent buildOnce (Font.mk 0) rhalf

/-- A concrete donut close to the boundary, used to instantiate the
boundary-reflection theorem: after a tick of `1/60` s its x position
becomes `21/2 > 10` (sign flip), its y position stays inside (no flip),
and its z position is already outside at `-53/5` (sign flip). -/
def sampleDonut : SceneObject :=
  { id := 7
    isTextMesh := false
    geometry := Geometry.torus (3/10) (1/5) 16 32
    material := Material.basicMat 0xff0000
    position := ⟨19/2, 0, -21/2⟩
    rotX := 0
    rotY := 0
    rotZ := 0
    scaleFactor := 1
    velocity := ⟨1, 1/100, -1/10⟩ }

/-- A concrete one-donut state used to instantiate the render-loop
theorems. -/
def sampleDonutState : AppState :=
  { sceneObjects := [sampleDonut]
    textMeshId := none
    donutMeshIds := [7]
    loadedFont := none
    matcapTexture := none
    config := initialConfig
    nextFreshId := 8
    disposeLog := [] }

/-- A concrete text mesh used to instantiate the text-lifecycle theorem. -/
def sampleTextObj : SceneObject :=
  { id := 3
    isTextMesh := true
    geometry := Geometry.textGeom (createTextGeometry "Hello :)")
    material := Material.basicMat 0xffffff
    position := ⟨0, 0, 0⟩
    rotX := 0
    rotY := 0
    rotZ := 0
    scaleFactor := 1
    velocity := ⟨0, 0, 0⟩ }

/-- A concrete single-text-mesh state used to instantiate the
text-lifecycle theorem. -/
def sampleTextState : AppState :=
  { sceneObjects := [sampleTextObj]
    textMeshId := some 3
    donutMeshIds := []
    loadedFont := some (Font.mk 0)
    matcapTexture := none
    config := initialConfig
    nextFreshId := 4
    disposeLog := [] }

/-! ## Helper lemmas -/

theorem materialHasColor_eq_true (m : Material) : materialHasColor m = true := by
  cases m <;> rfl

theorem colorOf_updateMaterialColor (c : Color) (m : Material) :
    (updateMaterialColor c m).colorOf = c := by
  cases m <;> rfl

theorem isBasic_updateMaterialColor (c : Color) (m : Material) :
    (updateMaterialColor c m).isBasic = m.isBasic := by
  cases m <;> rfl

theorem jsTrim_of_all_whitespace {s : String}
    (h : s.toList.all isJsWhitespace = true) : jsTrim s = "" := by
  have h' := List.all_eq_true.mp h
  unfold jsTrim
  have h1 : s.toList.dropWhile isJsWhitespace = [] :=
    List.dropWhile_eq_nil_iff.mpr h'
  rw [h1]
  rfl

theorem donutTick_position_x (dt : ℚ) (o : SceneObject) :
    (donutTick dt o).position.x = o.position.x + o.velocity.x * (dt * 60) := rfl

theorem donutTick_position_y (dt : ℚ) (o : SceneObject) :
    (donutTick dt o).position.y = o.position.y + o.velocity.y * (dt * 60) := rfl

theorem donutTick_position_z (dt : ℚ) (o : SceneObject) :
    (donutTick dt o).position.z = o.position.z + o.velocity.z * (dt * 60) := rfl

theorem donutTick_velocity_x (dt : ℚ) (o : SceneObject) :
    (donutTick dt o).velocity.x =
      if boundary < |(donutTick dt o).position.x| then -o.velocity.x
      else o.velocity.x := rfl

theorem donutTick_velocity_y (dt : ℚ) (o : SceneObject) :
    (donutTick dt o).velocity.y =
      if boundary < |(donutTick dt o).position.y| then -o.velocity.y
      else o.velocity.y := rfl

theorem donutTick_velocity_z (dt : ℚ) (o : SceneObject) :
    (donutTick dt o).velocity.z =
      if boundary < |(donutTick dt o).position.z| then -o.velocity.z
      else o.velocity.z := rfl

theorem find?_map_preserving_id (l : List SceneObject)
    (g : SceneObject → SceneObject) (hg : ∀ x, (g x).id = x.id) (tid : Nat) :
    (l.map g).find? (fun x => x.id == tid) =
      (l.find? (fun x => x.id == tid)).map g := by
  induction l with
  | nil => rfl
  | cons a l ih =>
    rw [List.map_cons]
    by_cases h : (a.id == tid) = true
    · rw [@List.find?_cons_of_pos _ (fun x => x.id == tid) (g a) (l.map g)
          (by show ((g a).id == tid) = true; rw [hg a]; exact h),
        @List.find?_cons_of_pos _ (fun x => x.id == tid) a l h]
      rfl
    · rw [@List.find?_cons_of_neg _ (fun x => x.id == tid) (g a) (l.map g)
          (by show ¬ ((g a).id == tid) = true; rw [hg a]; exact h),
        @List.find?_cons_of_neg _ (fun x => x.id == tid) a l h, ih]

@[simp]
theorem mkDonut_id (m : Option Texture) (rand : Nat → ℚ) (i id : Nat) :
    (mkDonut m rand i id).id = id := rfl

@[simp]
theorem mkDonut_isTextMesh (m : Option Texture) (rand : Nat → ℚ)
    (i id : Nat) : (mkDonut m rand i id).isTextMesh = false := rfl

@[simp]
theorem textObjOf_id (s : AppState) : (textObjOf s).id = s.nextFreshId := rfl

theorem contains_newDonutIds (m : Option Texture) (rand : Nat → ℚ)
    (n k : Nat) :
    ((newDonutsOf m rand n).map (fun o => o.id)).contains k = true ↔
      ∃ i, i < 100 ∧ k = n + 1 + i := by
  constructor
  · intro hc
    have hmem : k ∈ (newDonutsOf m rand n).map (fun o => o.id) := by
      simpa using hc
    obtain ⟨o, ho, hk⟩ := List.mem_map.mp hmem
    obtain ⟨i, hi, rfl⟩ := List.mem_map.mp ho
    exact ⟨i, List.mem_range.mp hi, by rw [← hk]; exact mkDonut_id m rand i (n + 1 + i)⟩
  · rintro ⟨i, hi, rfl⟩
    have hmem : (n + 1 + i) ∈ (newDonutsOf m rand n).map (fun o => o.id) := by
      refine List.mem_map.mpr ⟨mkDonut m rand i (n + 1 + i), ?_, rfl⟩
      exact List.mem_map.mpr ⟨i, List.mem_range.mpr hi, rfl⟩
    simpa using hmem

theorem filter_map_comm (l : List SceneObject)
    (g : SceneObject → SceneObject) (pred : SceneObject → Bool)
    (hp : ∀ x, pred (g x) = pred x) :
    (l.map g).filter pred = (l.filter pred).map g := by
  induction l with
  | nil => rfl
  | cons a l ih =>
    rw [List.map_cons]
    by_cases h : pred a = true
    · rw [@List.filter_cons_of_pos _ pred (g a) (l.map g)
          (by rw [hp a]; exact h),
        @List.filter_cons_of_pos _ pred a l h, List.map_cons, ih]
    · rw [@List.filter_cons_of_neg _ pred (g a) (l.map g)
          (by rw [hp a]; exact h),
        @List.filter_cons_of_neg _ pred a l h, ih]

theorem find?_map_comm (l : List SceneObject)
    (g : SceneObject → SceneObject) (pred : SceneObject → Bool)
    (hp : ∀ x, pred (g x) = pred x) :
    (l.map g).find? pred = (l.find? pred).map g := by
  induction l with
  | nil => rfl
  | cons a l ih =>
    rw [List.map_cons]
    by_cases h : pred a = true
    · rw [@List.find?_cons_of_pos _ pred (g a) (l.map g)
          (by rw [hp a]; exact h),
        @List.find?_cons_of_pos _ pred a l h]
      rfl
    · rw [@List.find?_cons_of_neg _ pred (g a) (l.map g)
          (by rw [hp a]; exact h),
        @List.find?_cons_of_neg _ pred a l h, ih]

theorem recolor_all (l : List SceneObject) (ids : List Nat) (c : Color)
    (h : ∀ o ∈ l, ids.contains o.id = true) :
    ((l.map (fun o =>
        if ids.contains o.id && materialHasColor o.material then
          { o with material := updateMaterialColor c o.material }
        else o)).map
      (fun o => o.material)).map Material.colorOf =
      List.replicate l.length c := by
  induction l with
  | nil => rfl
  | cons a l ih =>
    rw [List.map_cons, List.map_cons, List.map_cons, List.length_cons,
      List.replicate_succ]
    have hhead : Material.colorOf
        ((if ids.contains a.id && materialHasColor a.material then
          { a with material := updateMaterialColor c a.material }
        else a).material) = c := by
      rw [h a (List.mem_cons_self a l), materialHasColor_eq_true]
      exact colorOf_updateMaterialColor c a.material
    rw [hhead, ih (fun x hx => h x (List.mem_cons_of_mem a hx))]

theorem find?_append_false (p : SceneObject → Bool) (l₁ l₂ : List SceneObject)
    (h : ∀ x ∈ l₁, p x = false) : (l₁ ++ l₂).find? p = l₂.find? p := by
  induction l₁ with
  | nil => rfl
  | cons a l ih =>
    rw [List.cons_append,
      @List.find?_cons_of_neg _ p a (l ++ l₂)
        (by simp [h a (List.mem_cons_self a l)]),
      ih (fun x hx => h x (List.mem_cons_of_mem a hx))]

theorem map_eq_self_of_eq (l : List SceneObject)
    (g : SceneObject → SceneObject) (h : ∀ x ∈ l, g x = x) : l.map g = l := by
  induction l with
  | nil => rfl
  | cons a l ih =>
    rw [List.map_cons, h a (List.mem_cons_self a l),
      ih (fun x hx => h x (List.mem_cons_of_mem a hx))]

theorem setup_donutObjects (s : AppState) (font : Font) (rand : Nat → ℚ)
    (hwf : sceneWF s = true) :
    donutObjects (setupSceneContent s font rand) =
      newDonutsOf s.matcapTexture rand s.nextFreshId := by
  unfold sceneWF at hwf
  rw [Bool.and_eq_true] at hwf
  obtain ⟨hA, hB⟩ := hwf
  have hA' := List.all_eq_true.mp hA
  show (((s.sceneObjects ++ [textObjOf s]).filter
        (fun o => !(s.donutMeshIds.contains o.id))) ++
      newDonutsOf s.matcapTexture rand s.nextFreshId).filter
      (fun o => ((newDonutsOf s.matcapTexture rand s.nextFreshId).map
        (fun o => o.id)).contains o.id) =
    newDonutsOf s.matcapTexture rand s.nextFreshId
  rw [List.filter_append]
  have h1 : ((s.sceneObjects ++ [textObjOf s]).filter
        (fun o => !(s.donutMeshIds.contains o.id))).filter
      (fun o => ((newDonutsOf s.matcapTexture rand s.nextFreshId).map
        (fun o => o.id)).contains o.id) = [] := by
    refine List.filter_eq_nil_iff.mpr ?_
    intro o ho hcon
    obtain ⟨i, hi, hoid⟩ := (contains_newDonutIds _ _ _ _).mp hcon
    rcases List.mem_append.mp (List.mem_of_mem_filter ho) with hmem | hmem
    · have hlt : o.id < s.nextFreshId := by simpa using hA' o hmem
      omega
    · have : o = textObjOf s := by simpa using hmem
      rw [this] at hoid
      simp only [textObjOf_id] at hoid
      omega
  have h2 : (newDonutsOf s.matcapTexture rand s.nextFreshId).filter
      (fun o => ((newDonutsOf s.matcapTexture rand s.nextFreshId).map
        (fun o => o.id)).contains o.id) =
      newDonutsOf s.matcapTexture rand s.nextFreshId := by
    refine List.filter_eq_self.mpr ?_
    intro o ho
    obtain ⟨i, hi, rfl⟩ := List.mem_map.mp ho
    exact (contains_newDonutIds _ _ _ _).mpr
      ⟨i, List.mem_range.mp hi, rfl⟩
  rw [h1, h2, List.nil_append]

theorem setup_find_text (s : AppState) (font : Font) (rand : Nat → ℚ)
    (hwf : sceneWF s = true) :
    (setupSceneContent s font rand).sceneObjects.find?
      (fun o => o.id == s.nextFreshId) = some (textObjOf s) := by
  unfold sceneWF at hwf
  rw [Bool.and_eq_true] at hwf
  obtain ⟨hA, hB⟩ := hwf
  have hA' := List.all_eq_true.mp hA
  have hB' := List.all_eq_true.mp hB
  have hq : s.nextFreshId ∉ s.donutMeshIds := by
    intro hmem
    have := hB' _ hmem
    simp at this
  show (((s.sceneObjects ++ [textObjOf s]).filter
        (fun o => !(s.donutMeshIds.contains o.id))) ++
      newDonutsOf s.matcapTexture rand s.nextFreshId).find?
      (fun o => o.id == s.nextFreshId) = some (textObjOf s)
  rw [List.filter_append,
    show List.filter (fun o => !(s.donutMeshIds.contains o.id))
        [textObjOf s] = [textObjOf s] from by simp [hq],
    List.append_assoc,
    find?_append_false _ _ _ (fun x hx => ?_)]
  · rw [List.singleton_append,
      @List.find?_cons_of_pos _ (fun o => o.id == s.nextFreshId)
        (textObjOf s) (newDonutsOf s.matcapTexture rand s.nextFreshId)
        (by simp)]
  · have hxm := List.mem_of_mem_filter hx
    have hlt : x.id < s.nextFreshId := by simpa using hA' x hxm
    simp only [beq_eq_false_iff_ne, ne_eq]
    omega

/-! ## Claim theorems -/

/-- Claim C1: in each render-loop tick, every donut is advanced by its
velocity scaled by elapsed time (no positional clamping), and on each axis
the velocity component's sign is flipped exactly when the absolute value of
the already-updated position on that axis exceeds the fixed boundary of 10;
on axes where it does not exceed the boundary the component is unchanged. -/
theorem C1_boundary_reflection (dt : ℚ) (s : AppState) (o : SceneObject)
    (ho : o ∈ s.sceneObjects) (hd : s.donutMeshIds.contains o.id = true) :
    donutTick dt o ∈ (animate dt s).sceneObjects ∧
    (donutTick dt o).position.x = o.position.x + o.velocity.x * (dt * 60) ∧
    (donutTick dt o).position.y = o.position.y + o.velocity.y * (dt * 60) ∧
    (donutTick dt o).position.z = o.position.z + o.velocity.z * (dt * 60) ∧
    (boundary < |(donutTick dt o).position.x| →
      (donutTick dt o).velocity.x = -o.velocity.x) ∧
    (¬ boundary < |(donutTick dt o).position.x| →
      (donutTick dt o).velocity.x = o.velocity.x) ∧
    (boundary < |(donutTick dt o).position.y| →
      (donutTick dt o).velocity.y = -o.velocity.y) ∧
    (¬ boundary < |(donutTick dt o).position.y| →
      (donutTick dt o).velocity.y = o.velocity.y) ∧
    (boundary < |(donutTick dt o).position.z| →
      (donutTick dt o).velocity.z = -o.velocity.z) ∧
    (¬ boundary < |(donutTick dt o).position.z| →
      (donutTick dt o).velocity.z = o.velocity.z) := by
  refine ⟨?_, rfl, rfl, rfl, ?_, ?_, ?_, ?_, ?_, ?_⟩
  · have heq : (fun x => if s.donutMeshIds.contains x.id then donutTick dt x
        else x) o = donutTick dt o := by
      show (if s.donutMeshIds.contains o.id then donutTick dt o else o) =
        donutTick dt o
      rw [hd]
      rfl
    have hmem := List.mem_map_of_mem
      (fun x => if s.donutMeshIds.contains x.id then donutTick dt x else x) ho
    rw [heq] at hmem
    exact hmem
  · intro h; rw [donutTick_velocity_x, if_pos h]
  · intro h; rw [donutTick_velocity_x, if_neg h]
  · intro h; rw [donutTick_velocity_y, if_pos h]
  · intro h; rw [donutTick_velocity_y, if_neg h]
  · intro h; rw [donutTick_velocity_z, if_pos h]
  · intro h; rw [donutTick_velocity_z, if_neg h]

/-- Witness for C1 at a concrete donut and tick: the x axis leaves the
boundary in the tick and flips, the y axis stays inside and is unchanged,
the z axis was already outside and flips, and the position itself remains
outside the boundary (no clamping). -/
theorem C1_boundary_reflection_witness :
    donutTick (1/60) sampleDonut ∈
      (animate (1/60) sampleDonutState).sceneObjects ∧
    (donutTick (1/60) sampleDonut).velocity.x = -sampleDonut.velocity.x ∧
    (donutTick (1/60) sampleDonut).velocity.y = sampleDonut.velocity.y ∧
    (donutTick (1/60) sampleDonut).velocity.z = -sampleDonut.velocity.z ∧
    boundary < |(donutTick (1/60) sampleDonut).position.x| := by
  have hbx : boundary < |(donutTick (1/60 : ℚ) sampleDonut).position.x| := by
    rw [donutTick_position_x]
    show (10 : ℚ) < |19/2 + 1 * (1/60 * 60)|
    rw [abs_of_pos (by norm_num : (0 : ℚ) < 19/2 + 1 * (1/60 * 60))]
    norm_num
  have hby : ¬ boundary < |(donutTick (1/60 : ℚ) sampleDonut).position.y| := by
    rw [donutTick_position_y]
    show ¬ (10 : ℚ) < |0 + 1/100 * (1/60 * 60)|
    rw [abs_of_pos (by norm_num : (0 : ℚ) < 0 + 1/100 * (1/60 * 60))]
    norm_num
  have hbz : boundary < |(donutTick (1/60 : ℚ) sampleDonut).position.z| := by
    rw [donutTick_position_z]
    show (10 : ℚ) < |(-21/2 : ℚ) + (-1/10) * (1/60 * 60)|
    rw [abs_of_neg (by norm_num : ((-21/2 : ℚ) + (-1/10) * (1/60 * 60)) < 0)]
    norm_num
  obtain ⟨hmem, hpx, hpy, hpz, hxf, hxu, hyf, hyu, hzf, hzu⟩ :=
    C1_boundary_reflection (1/60) sampleDonutState sampleDonut
      (List.mem_singleton.mpr rfl) rfl
  exact ⟨hmem, hxf hbx, hyu hby, hzf hbz, hbx⟩

/-- Claim C2: when the font load fails, `init` leaves the application state
untouched (no text mesh and no donuts are built), never starts the render
loop, and fires the blocking alert exactly once. -/
theorem C2_font_failure (s : AppState) (r : RenderState) (w h dpr : ℚ)
    (rand : Nat → ℚ) :
    init s r w h dpr (Except.error ()) rand =
      { state := s
        renderState := r
        renderLoopStarted := false
        alertCount := 1 } ∧
    (init s r w h dpr (Except.error ()) rand).state.sceneObjects =
      s.sceneObjects ∧
    (init s r w h dpr (Except.error ()) rand).renderLoopStarted = false ∧
    (init s r w h dpr (Except.error ()) rand).alertCount = 1 :=
  ⟨rfl, rfl, rfl, rfl⟩

/-- Claim C9: on every viewport resize the camera aspect becomes the new
width divided by the new height, the renderer is resized to the new
viewport resolution, and the applied device pixel ratio equals
`min(devicePixelRatio, 2)`, hence never exceeds 2. -/
theorem C9_resize (w h dpr : ℚ) (r : RenderState) :
    (handleResize w h dpr r).cameraAspect = w / h ∧
    (handleResize w h dpr r).rendererWidth = w ∧
    (handleResize w h dpr r).rendererHeight = h ∧
    (handleResize w h dpr r).pixelScale = min dpr 2 ∧
    (handleResize w h dpr r).pixelScale ≤ 2 :=
  ⟨rfl, rfl, rfl, rfl, min_le_right dpr 2⟩

/-- Claim C6: text-geometry construction succeeds for every input string
(the function is total), the empty input is replaced by the placeholder
`...` before the geometry is built, and the resulting geometry is centered
at the origin. -/
theorem C6_text_geometry_total (s : String) :
    (createTextGeometry s).centered = true ∧
    (createTextGeometry "").text = "..." :=
  ⟨rfl, by decide⟩

/-- Claim C10: every whitespace-only input trims to the empty string and is
replaced by the placeholder `...`, yielding a geometry identical to the one
for the empty string; in general the placeholder branch is taken exactly
when the input trims to the empty string. -/
theorem C10_whitespace_placeholder (s t : String)
    (hw : s.toList.all isJsWhitespace = true) :
    jsTrim s = "" ∧
    (createTextGeometry s).text = "..." ∧
    createTextGeometry s = createTextGeometry "" ∧
    (jsTrim t = "" → (createTextGeometry t).text = "...") ∧
    (jsTrim t ≠ "" → (createTextGeometry t).text = t) := by
  have hs : jsTrim s = "" := jsTrim_of_all_whitespace hw
  refine ⟨hs, ?_, ?_, ?_, ?_⟩
  · simp [createTextGeometry, hs]
  · have h0 : jsTrim "" = "" := by decide
    simp [createTextGeometry, hs, h0]
  · intro h; simp [createTextGeometry, h]
  · intro h; simp [createTextGeometry, h]

/-- Witness for C10 at the concrete whitespace-only input consisting of a
space, a tab and a no-break space: it is trimmed to the empty string, gets
the placeholder, and yields the same geometry as the empty string, while a
non-blank input keeps its own text. -/
theorem C10_whitespace_placeholder_witness :
    jsTrim " \t " = "" ∧
    (createTextGeometry " \t ").text = "..." ∧
    createTextGeometry " \t " = createTextGeometry "" ∧
    (createTextGeometry "x").text = "x" := by
  obtain ⟨h1, h2, h3, _, h5⟩ :=
    C10_whitespace_placeholder " \t " "x" (by decide)
  exact ⟨h1, h2, h3, h5 (by decide)⟩

/-- Claim C5: every invocation of the content builder leaves exactly 100
meshes in the decorative collection, and the collection is unchanged by
render-loop ticks and by every GUI handler, so its size stays 100 until the
next rebuild. -/
theorem C5_population_size :
    (∀ (s : AppState) (font : Font) (rand : Nat → ℚ),
      (setupSceneContent s font rand).donutMeshIds.length = 100) ∧
    (∀ (dt : ℚ) (s : AppState),
      (animate dt s).donutMeshIds = s.donutMeshIds) ∧
    (∀ (c : Color) (s : AppState),
      (onTextColorChange c s).donutMeshIds = s.donutMeshIds) ∧
    (∀ (t : String) (s : AppState),
      (onTextValueChange t s).donutMeshIds = s.donutMeshIds) ∧
    (∀ (c : Color) (s : AppState),
      (onDonutColorChange c s).donutMeshIds = s.donutMeshIds) := by
  refine ⟨?_, ?_, ?_, ?_, ?_⟩
  · intro s font rand
    simp [setupSceneContent, newDonutsOf]
  · intro dt s; rfl
  · intro c s
    unfold onTextColorChange
    cases htm : s.textMeshId <;> simp
  · intro t s
    unfold onTextValueChange
    cases htm : s.textMeshId <;> cases hf : s.loadedFont <;> simp
    cases hfind : s.sceneObjects.find? (fun o => o.id == _) <;> simp
  · intro c s; rfl

/-- Claim C4 evidence: re-invoking the content builder performs no
`dispose` call at all — the dispose log is left exactly as it was by every
invocation, and after a concrete rebuild it is still empty even though all
100 previous donut meshes were removed from the scene. -/
theorem C4_rebuild_no_dispose :
    (∀ (s : AppState) (font : Font) (rand : Nat → ℚ),
      (setupSceneContent s font rand).disposeLog = s.disposeLog) ∧
    buildTwice.disposeLog = [] ∧
    buildTwice.sceneObjects.all
      (fun o => !(buildOnce.donutMeshIds.contains o.id)) = true := by
  refine ⟨fun s font rand => rfl, rfl, ?_⟩
  decide

/-- Claim C8 counterexample: after re-invoking the content builder once,
the scene contains two text meshes (the previous text mesh is never removed
by the rebuild), so the invariant that exactly one text object exists at
every point after content build fails. -/
theorem C8_two_text_meshes_after_rebuild :
    countTextMeshes buildOnce = 1 ∧
    countTextMeshes buildTwice = 2 ∧
    countTextMeshes buildTwice ≠ 1 := by
  exact ⟨by decide, by decide, by decide⟩

/-- Claim C8 (amended): a single content build from the bootstrap state
leaves exactly one text mesh in the scene (a rebuild adds another, see the
counterexample); when the text content changes, the old geometry of the
tracked text mesh is disposed and a newly generated geometry is substituted
on the same mesh (the mesh and its id survive); when only the text color
changes, the material color is updated in place with no geometry change and
no disposal. -/
theorem C8_text_object_lifecycle (s : AppState) (tid : Nat) (o : SceneObject)
    (t : String) (c : Color) (f : Font)
    (htid : s.textMeshId = some tid)
    (hfind : s.sceneObjects.find? (fun x => x.id == tid) = some o)
    (hfont : s.loadedFont = some f) :
    (∀ (m : Option Texture) (font : Font) (rand : Nat → ℚ),
      countTextMeshes (setupSceneContent (initialState m) font rand) = 1) ∧
    (onTextValueChange t s).disposeLog = s.disposeLog ++ [o.geometry] ∧
    (onTextValueChange t s).sceneObjects.find? (fun x => x.id == tid) =
      some { o with geometry := Geometry.textGeom (createTextGeometry t) } ∧
    (onTextValueChange t s).textMeshId = s.textMeshId ∧
    (onTextColorChange c s).sceneObjects.find? (fun x => x.id == tid) =
      some { o with material := updateMaterialColor c o.material } ∧
    (onTextColorChange c s).disposeLog = s.disposeLog := by
  have hpo : (o.id == tid) = true :=
    @List.find?_some _ (fun x => x.id == tid) o s.sceneObjects hfind
  refine ⟨?_, ?_, ?_, ?_, ?_, ?_⟩
  · intro m font rand
    simp [countTextMeshes, setupSceneContent, initialState, newDonutsOf,
      List.countP_append, List.countP_map, Function.comp, mkDonut, textObjOf,
      List.countP_eq_zero, List.countP_cons]
  · simp only [onTextValueChange, htid, hfont, hfind]
  · simp only [onTextValueChange, htid, hfont, hfind]
    rw [find?_map_preserving_id _ _
      (fun x => by by_cases h : (x.id == tid) = true <;> simp [h]) tid, hfind]
    simp only [Option.map_some']
    rw [if_pos hpo]
  · simp only [onTextValueChange, htid, hfont, hfind]
  · simp only [onTextColorChange, htid]
    rw [find?_map_preserving_id _ _
      (fun x => by by_cases h : (x.id == tid) = true <;> simp [h]) tid, hfind]
    simp only [Option.map_some']
    rw [if_pos hpo]
  · simp only [onTextColorChange, htid]

/-- Witness for the amended C8 at a concrete single-text-mesh state: one
text mesh after a build, content change disposes the old geometry and swaps
in the new one on mesh id 3, color change recolors the material of mesh id
3 in place without touching the dispose log. -/
theorem C8_text_object_lifecycle_witness :
    countTextMeshes (setupSceneContent (initialState none) (Font.mk 0)
      rhalf) = 1 ∧
    (onTextValueChange "hi" sampleTextState).disposeLog =
      sampleTextState.disposeLog ++ [sampleTextObj.geometry] ∧
    (onTextValueChange "hi" sampleTextState).sceneObjects.find?
        (fun x => x.id == 3) =
      some { sampleTextObj with
             geometry := Geometry.textGeom (createTextGeometry "hi") } ∧
    (onTextValueChange "hi" sampleTextState).textMeshId =
      sampleTextState.textMeshId ∧
    (onTextColorChange 0x00ff00 sampleTextState).sceneObjects.find?
        (fun x => x.id == 3) =
      some { sampleTextObj with
             material :=
               updateMaterialColor 0x00ff00 sampleTextObj.material } ∧
    (onTextColorChange 0x00ff00 sampleTextState).disposeLog =
      sampleTextState.disposeLog := by
  obtain ⟨h1, h2, h3, h4, h5, h6⟩ :=
    C8_text_object_lifecycle sampleTextState 3 sampleTextObj "hi" 0x00ff00
      (Font.mk 0) rfl rfl rfl
  exact ⟨h1 none (Font.mk 0) rhalf, h2, h3, h4, h5, h6⟩

/-- Claim C3: when the texture load fails, the `catch` swallows the error
(`loadMatcapTexture` is total, emitting one console warning and leaving the
texture `null`), and every material built afterwards — the text material and
all 100 donut materials — is the flat-color fallback variant. -/
theorem C3_texture_fallback (s : AppState) (font : Font) (rand : Nat → ℚ)
    (hm : s.matcapTexture = none) (hwf : sceneWF s = true) :
    (loadMatcapTexture (Except.error ())).matcapTexture = none ∧
    (loadMatcapTexture (Except.error ())).consoleWarnings = 1 ∧
    (textMaterialOf (setupSceneContent s font rand)).map Material.isBasic =
      some true ∧
    (donutMaterials (setupSceneContent s font rand)).all Material.isBasic =
      true ∧
    (donutMaterials (setupSceneContent s font rand)).length = 100 := by
  have hfind := setup_find_text s font rand hwf
  have hdo := setup_donutObjects s font rand hwf
  refine ⟨rfl, rfl, ?_, ?_, ?_⟩
  · show (((setupSceneContent s font rand).sceneObjects.find?
        (fun o => o.id == s.nextFreshId)).map (fun o => o.material)).map
        Material.isBasic = some true
    rw [hfind]
    simp only [Option.map_some']
    show some (Material.isBasic (textObjOf s).material) = some true
    simp [textObjOf, hm, Material.isBasic]
  · show ((donutObjects (setupSceneContent s font rand)).map
        (fun o => o.material)).all Material.isBasic = true
    rw [hdo, hm]
    rw [List.all_eq_true]
    intro m hmem
    obtain ⟨o, ho, rfl⟩ := List.mem_map.mp hmem
    obtain ⟨i, hi, rfl⟩ := List.mem_map.mp ho
    rfl
  · show ((donutObjects (setupSceneContent s font rand)).map
        (fun o => o.material)).length = 100
    rw [hdo]
    simp [newDonutsOf]

/-- Witness for C3 at the bootstrap state with the matcap texture load
failed: the text material and all 100 donut materials come out as the
flat-color fallback variant. -/
theorem C3_texture_fallback_witness :
    (loadMatcapTexture (Except.error ())).matcapTexture = none ∧
    (loadMatcapTexture (Except.error ())).consoleWarnings = 1 ∧
    (textMaterialOf (setupSceneContent (initialState none) (Font.mk 0)
      rhalf)).map Material.isBasic = some true ∧
    (donutMaterials (setupSceneContent (initialState none) (Font.mk 0)
      rhalf)).all Material.isBasic = true ∧
    (donutMaterials (setupSceneContent (initialState none) (Font.mk 0)
      rhalf)).length = 100 :=
  C3_texture_fallback (initialState none) (Font.mk 0) rhalf rfl rfl

/-- Claim C7: after a content build, the global donut color picker sets the
color of all 100 donut materials and leaves the text material untouched,
while the text color picker recolors only the text material and leaves every
donut material unchanged. -/
theorem C7_color_picker_isolation (s : AppState) (font : Font)
    (rand : Nat → ℚ) (c : Color) (hwf : sceneWF s = true) :
    donutMaterialColors (onDonutColorChange c
      (setupSceneContent s font rand)) = List.replicate 100 c ∧
    textMaterialOf (onDonutColorChange c (setupSceneContent s font rand)) =
      textMaterialOf (setupSceneContent s font rand) ∧
    donutMaterialColors (onTextColorChange c
      (setupSceneContent s font rand)) =
      donutMaterialColors (setupSceneContent s font rand) ∧
    textMaterialOf (onTextColorChange c (setupSceneContent s font rand)) =
      (textMaterialOf (setupSceneContent s font rand)).map
        (updateMaterialColor c) := by
  have hfind := setup_find_text s font rand hwf
  have hdo := setup_donutObjects s font rand hwf
  have hdo' : (setupSceneContent s font rand).sceneObjects.filter
      (fun o => (setupSceneContent s font rand).donutMeshIds.contains o.id) =
      newDonutsOf s.matcapTexture rand s.nextFreshId := hdo
  have hlen : (newDonutsOf s.matcapTexture rand s.nextFreshId).length = 100 :=
    by simp [newDonutsOf]
  have hown : ∀ o ∈ newDonutsOf s.matcapTexture rand s.nextFreshId,
      (setupSceneContent s font rand).donutMeshIds.contains o.id = true := by
    intro o ho
    obtain ⟨i, hi, rfl⟩ := List.mem_map.mp ho
    show ((newDonutsOf s.matcapTexture rand s.nextFreshId).map
      (fun o => o.id)).contains (mkDonut s.matcapTexture rand i
        (s.nextFreshId + 1 + i)).id = true
    rw [mkDonut_id]
    exact (contains_newDonutIds _ _ _ _).mpr ⟨i, List.mem_range.mp hi, rfl⟩
  have hnotin : (setupSceneContent s font rand).donutMeshIds.contains
      (textObjOf s).id = false := by
    show ((newDonutsOf s.matcapTexture rand s.nextFreshId).map
      (fun o => o.id)).contains s.nextFreshId = false
    cases hc : ((newDonutsOf s.matcapTexture rand s.nextFreshId).map
        (fun o => o.id)).contains s.nextFreshId
    · rfl
    · obtain ⟨i, hi, he⟩ := (contains_newDonutIds _ _ _ _).mp hc
      omega
  have hscene : (onDonutColorChange c
      (setupSceneContent s font rand)).sceneObjects =
      (setupSceneContent s font rand).sceneObjects.map (fun o =>
        if (setupSceneContent s font rand).donutMeshIds.contains o.id &&
            materialHasColor o.material then
          { o with material := updateMaterialColor c o.material }
        else o) := rfl
  have hscene3 : (onTextColorChange c
      (setupSceneContent s font rand)).sceneObjects =
      (setupSceneContent s font rand).sceneObjects.map (fun o =>
        if o.id == s.nextFreshId then
          { o with material := updateMaterialColor c o.material }
        else o) := rfl
  have hp1 : ∀ x : SceneObject,
      (setupSceneContent s font rand).donutMeshIds.contains
        (if (setupSceneContent s font rand).donutMeshIds.contains x.id &&
            materialHasColor x.material then
          { x with material := updateMaterialColor c x.material }
        else x).id =
      (setupSceneContent s font rand).donutMeshIds.contains x.id := by
    intro x
    by_cases hx : ((setupSceneContent s font rand).donutMeshIds.contains
        x.id && materialHasColor x.material) = true
    · rw [if_pos hx]
    · rw [if_neg hx]
  have hp2 : ∀ x : SceneObject,
      ((if (setupSceneContent s font rand).donutMeshIds.contains x.id &&
            materialHasColor x.material then
          { x with material := updateMaterialColor c x.material }
        else x).id == s.nextFreshId) = (x.id == s.nextFreshId) := by
    intro x
    by_cases hx : ((setupSceneContent s font rand).donutMeshIds.contains
        x.id && materialHasColor x.material) = true
    · rw [if_pos hx]
    · rw [if_neg hx]
  have hp3 : ∀ x : SceneObject,
      (setupSceneContent s font rand).donutMeshIds.contains
        (if x.id == s.nextFreshId then
          { x with material := updateMaterialColor c x.material }
        else x).id =
      (setupSceneContent s font rand).donutMeshIds.contains x.id := by
    intro x
    by_cases hx : (x.id == s.nextFreshId) = true
    · rw [if_pos hx]
    · rw [if_neg hx]
  have hp4 : ∀ x : SceneObject,
      ((if x.id == s.nextFreshId then
          { x with material := updateMaterialColor c x.material }
        else x).id == s.nextFreshId) = (x.id == s.nextFreshId) := by
    intro x
    by_cases hx : (x.id == s.nextFreshId) = true
    · rw [if_pos hx]
    · rw [if_neg hx]
  refine ⟨?_, ?_, ?_, ?_⟩
  · show (((onDonutColorChange c
        (setupSceneContent s font rand)).sceneObjects.filter
        (fun o => (setupSceneContent s font rand).donutMeshIds.contains
          o.id)).map (fun o => o.material)).map Material.colorOf =
      List.replicate 100 c
    rw [hscene, filter_map_comm _ _ _ hp1, hdo',
      recolor_all (newDonutsOf s.matcapTexture rand s.nextFreshId)
        (setupSceneContent s font rand).donutMeshIds c hown, hlen]
  · show (((onDonutColorChange c
        (setupSceneContent s font rand)).sceneObjects.find?
        (fun o => o.id == s.nextFreshId)).map (fun o => o.material)) =
      (((setupSceneContent s font rand).sceneObjects.find?
        (fun o => o.id == s.nextFreshId)).map (fun o => o.material))
    rw [hscene, find?_map_comm _ _ _ hp2, hfind]
    simp only [Option.map_some']
    have hgt : (if (setupSceneContent s font rand).donutMeshIds.contains
          (textObjOf s).id && materialHasColor (textObjOf s).material then
        { textObjOf s with
          material := updateMaterialColor c (textObjOf s).material }
      else textObjOf s) = textObjOf s := by
      rw [hnotin]
      rfl
    show some ((if (setupSceneContent s font rand).donutMeshIds.contains
          (textObjOf s).id && materialHasColor (textObjOf s).material then
        { textObjOf s with
          material := updateMaterialColor c (textObjOf s).material }
      else textObjOf s).material) = some (textObjOf s).material
    rw [hgt]
  · show (((onTextColorChange c
        (setupSceneContent s font rand)).sceneObjects.filter
        (fun o => (setupSceneContent s font rand).donutMeshIds.contains
          o.id)).map (fun o => o.material)).map Material.colorOf =
      (((setupSceneContent s font rand).sceneObjects.filter
        (fun o => (setupSceneContent s font rand).donutMeshIds.contains
          o.id)).map (fun o => o.material)).map Material.colorOf
    rw [hscene3, filter_map_comm _ _ _ hp3, hdo']
    have hmapid : (newDonutsOf s.matcapTexture rand s.nextFreshId).map
        (fun o => if o.id == s.nextFreshId then
          { o with material := updateMaterialColor c o.material }
        else o) = newDonutsOf s.matcapTexture rand s.nextFreshId := by
      refine map_eq_self_of_eq _ _ ?_
      intro x hx
      obtain ⟨i, hi, rfl⟩ := List.mem_map.mp hx
      have hne : ((mkDonut s.matcapTexture rand i
          (s.nextFreshId + 1 + i)).id == s.nextFreshId) = false := by
        rw [mkDonut_id]
        exact beq_eq_false_iff_ne.mpr (by omega)
      rw [hne]
      rfl
    rw [hmapid]
  · show (((onTextColorChange c
        (setupSceneContent s font rand)).sceneObjects.find?
        (fun o => o.id == s.nextFreshId)).map (fun o => o.material)) =
      ((((setupSceneContent s font rand).sceneObjects.find?
        (fun o => o.id == s.nextFreshId)).map (fun o => o.material)).map
        (updateMaterialColor c))
    rw [hscene3, find?_map_comm _ _ _ hp4, hfind]
    simp only [Option.map_some']
    show some ((if (textObjOf s).id == s.nextFreshId then
        { textObjOf s with
          material := updateMaterialColor c (textObjOf s).material }
      else textObjOf s).material) =
      some (updateMaterialColor c (textObjOf s).material)
    rw [show ((textObjOf s).id == s.nextFreshId) = true from by simp]
    rfl

/-- Witness for C7 at the bootstrap state: setting the global donut color
to `0x00ff00` turns all 100 donut material colors to `0x00ff00` without
touching the text material, and the text color picker leaves the donut
colors untouched while recoloring the text material. -/
theorem C7_color_picker_isolation_witness :
    donutMaterialColors (onDonutColorChange 0x00ff00
      (setupSceneContent (initialState none) (Font.mk 0) rhalf)) =
      List.replicate 100 0x00ff00 ∧
    textMaterialOf (onDonutColorChange 0x00ff00
      (setupSceneContent (initialState none) (Font.mk 0) rhalf)) =
      textMaterialOf (setupSceneContent (initialState none) (Font.mk 0)
        rhalf) ∧
    donutMaterialColors (onTextColorChange 0x00ff00
      (setupSceneContent (initialState none) (Font.mk 0) rhalf)) =
      donutMaterialColors (setupSceneContent (initialState none) (Font.mk 0)
        rhalf) ∧
    textMaterialOf (onTextColorChange 0x00ff00
      (setupSceneContent (initialState none) (Font.mk 0) rhalf)) =
      (textMaterialOf (setupSceneContent (initialState none) (Font.mk 0)
        rhalf)).map (updateMaterialColor 0x00ff00) :=
  C7_color_picker_isolation (initialState none) (Font.mk 0) rhalf
    0x00ff00 rfl

end DonutApp
